import Mathlib

/-!
Verification of the Insight, Validation & Drift Engine.

This file gives a shallow embedding, in Lean 4, of the statistical core of
the repository: the helper arithmetic (src/src/utils/helpers.py), the
insight generator (src/src/agents/insight_agent.py), the evaluator
(src/src/agents/evaluator_agent.py), the drift detector
(src/src/utils/drift_detector.py), the resilient call wrapper
(src/src/utils/safety.py) and the schema validator / upgrader
(src/src/utils/schema_validator.py).  Python floats are modelled as exact
rationals; Python dictionaries with optional keys are modelled as records
of Option-typed fields; code that can raise is modelled with Except.
The theorems at the end of the file settle the frozen claims about the
specification.
-/

/- ===================================================================
   Generic numeric helpers shared by several modules.
   =================================================================== -/

/-- Python's round-half-to-even on a rational, returning an integer.
Models the builtin round applied to a value that is exactly representable;
the embedding works in exact rational arithmetic throughout. -/
def roundHalfEven (q : ℚ) : ℤ :=
  let f := ⌊q⌋
  let r := q - f
  if r < 1/2 then f
  else if 1/2 < r then f + 1
  else if f % 2 = 0 then f else f + 1

/-- Python's round(x, n): round to n decimal digits, half to even. -/
def pyRoundTo (n : ℕ) (q : ℚ) : ℚ :=
  (roundHalfEven (q * 10 ^ n) : ℚ) / 10 ^ n

/- ===================================================================
   src/src/utils/helpers.py : percent_change
   =================================================================== -/

/-- Embedding of percent_change(current, previous, default) from
src/src/utils/helpers.py for numeric arguments.  The None / non-numeric
early returns of the Python function are outside this model: both
arguments are already numbers here. -/
def percent_change (current previous default : ℚ) : ℚ :=
  if current = 0 ∧ previous = 0 then 0
  else if previous = 0 then default
  else if previous < 0 ∧ 0 < current then (|current| - |previous|) / |previous|
  else (current - previous) / |previous|

/- ===================================================================
   src/src/utils/drift_detector.py : DriftDetector
   =================================================================== -/

/-- A baseline / current statistics snapshot as consumed by
DriftDetector.detect_drift: the campaign count, the per-family drop
counts, and the mean of each family's relative-delta sample (absent when
compute_stats saw no changes for that family, or when the persisted
baseline lacks the entry). -/
structure RunStats where
  campaignCount : ℕ
  roasDropCount : ℕ
  ctrDropCount : ℕ
  roasMean : Option ℚ
  ctrMean : Option ℚ
deriving DecidableEq

/-- One entry of the detections list built by detect_drift.  The field
dtype embeds the Python key "type". -/
structure Detection where
  dtype : String
  baseline : ℚ
  current : ℚ
  drift_pct : ℚ
  severity : String
deriving DecidableEq

/-- The count-drift check of detect_drift (used for the campaign count and
the return-on-ad-spend drop count): guarded by baseline > 0, drift is
|current − baseline| / baseline, a detection is recorded when the drift
strictly exceeds the threshold, severity "high" above 0.5. -/
def countDetection (threshold : ℚ) (name : String) (b c : ℕ) : List Detection :=
  if 0 < b then
    let drift : ℚ := |(c : ℚ) - (b : ℚ)| / (b : ℚ)
    if threshold < drift then
      [{ dtype := name, baseline := (b : ℚ), current := (c : ℚ),
         drift_pct := pyRoundTo 1 (drift * 100),
         severity := if 1/2 < drift then "high" else "medium" }]
    else []
  else []

/-- The metric-mean drift check of detect_drift: both means must be
present and the baseline mean non-zero; drift is
|current − baseline| / |baseline|; displayed values are rounded to 4
decimals, the drift percentage to 1. -/
def meanDetection (threshold : ℚ) (name : String) (bm cm : Option ℚ) :
    List Detection :=
  match bm, cm with
  | some b, some c =>
    if b ≠ 0 then
      let drift := |c - b| / |b|
      if threshold < drift then
        [{ dtype := name ++ "_mean", baseline := pyRoundTo 4 b,
           current := pyRoundTo 4 c, drift_pct := pyRoundTo 1 (drift * 100),
           severity := if 1/2 < drift then "high" else "medium" }]
      else []
    else []
  | _, _ => []

/-- The report returned by DriftDetector.detect_drift. -/
structure DriftReport where
  has_drift : Bool
  severity : String
  detections : List Detection
deriving DecidableEq

/-- Embedding of DriftDetector.detect_drift.  The baseline argument is the
value of self.baseline as produced by _load_baseline at construction:
none when the baseline file was absent or unreadable.  The code compares
the campaign count, the ROAS drop count (the CTR drop count has no
comparison in the source), and the mean of each family's relative-delta
sample. -/
def detect_drift (baseline : Option RunStats) (threshold : ℚ)
    (cur : RunStats) : DriftReport :=
  match baseline with
  | none => { has_drift := false, severity := "none", detections := [] }
  | some b =>
    let ds :=
      countDetection threshold "campaign_count" b.campaignCount cur.campaignCount ++
      countDetection threshold "roas_drop_count" b.roasDropCount cur.roasDropCount ++
      meanDetection threshold "roas_changes" b.roasMean cur.roasMean ++
      meanDetection threshold "ctr_changes" b.ctrMean cur.ctrMean
    if ds.isEmpty then { has_drift := false, severity := "none", detections := ds }
    else
      { has_drift := true,
        severity := if ds.any (fun d => d.severity == "high") then "high" else "medium",
        detections := ds }

/-- Reference detection rule written from the words of the amended claim
C3: for a signal with baseline value bv and current value cv, the signal
is skipped when bv is 0; otherwise the relative drift is
|cv − bv| / |bv| and a detection is recorded exactly when the drift
exceeds the threshold, tagged "high" when the drift exceeds 0.5 and
"medium" otherwise.  Display fields follow the report format of the spec
(baseline / current rounded to 4 decimals, drift percentage to 1). -/
def specDetect (threshold : ℚ) (name : String) (bv cv : ℚ) : List Detection :=
  if bv = 0 then []
  else
    let drift := |cv - bv| / |bv|
    if threshold < drift then
      [{ dtype := name, baseline := pyRoundTo 4 bv, current := pyRoundTo 4 cv,
         drift_pct := pyRoundTo 1 (drift * 100),
         severity := if 1/2 < drift then "high" else "medium" }]
    else []

/-- Reference detections list written from the words of the amended claim
C3: the compared signals are the campaign count, the ROAS drop count, and
each family's mean relative-delta (present on both sides); the CTR drop
count is not compared. -/
def driftSpecDetections (b cur : RunStats) (threshold : ℚ) : List Detection :=
  specDetect threshold "campaign_count" b.campaignCount cur.campaignCount ++
  specDetect threshold "roas_drop_count" b.roasDropCount cur.roasDropCount ++
  (match b.roasMean, cur.roasMean with
   | some bm, some cm => specDetect threshold ("roas_changes" ++ "_mean") bm cm
   | _, _ => []) ++
  (match b.ctrMean, cur.ctrMean with
   | some bm, some cm => specDetect threshold ("ctr_changes" ++ "_mean") bm cm
   | _, _ => [])

/- ===================================================================
   src/src/utils/safety.py : safe_call
   =================================================================== -/

/-- The exception raised by the safe_call wrapper on final failure: the
configured error classification (the error_type argument, one of the
PipelineError subclasses), the formatted message, and the original
exception chained as the cause (raise ... from last_exception). -/
structure SafeFailure where
  classification : String
  message : String
  cause : String
deriving DecidableEq

/-- The attempt loop of safe_call: the wrapped operation is modelled as a
function from the attempt index to that invocation's outcome.  tryAttempts
op i n runs attempts i, i+1, ..., i+n, returning the first success or the
final attempt's exception (Python keeps only the last exception).  The
backoff sleep between attempts is real-time behaviour with no effect on
the returned value and is not modelled. -/
def tryAttempts {α : Type} (op : ℕ → Except String α) :
    ℕ → ℕ → Except String α
  | i, 0 => op i
  | i, n + 1 =>
    match op i with
    | .ok a => .ok a
    | .error _ => tryAttempts op (i + 1) n

/-- Embedding of the safe_call wrapper from src/src/utils/safety.py: run
up to max_retries + 1 attempts; on final failure return the fallback when
one was supplied, otherwise raise the configured error classification with
the original exception as cause. -/
def safe_call {α : Type} (errorType : String) (maxRetries : ℕ)
    (fallback : Option α) (op : ℕ → Except String α) : Except SafeFailure α :=
  match tryAttempts op 0 maxRetries with
  | .ok a => .ok a
  | .error e =>
    match fallback with
    | some v => .ok v
    | none =>
      .error { classification := errorType,
               message := "failed after " ++ toString (maxRetries + 1) ++
                 " attempts: " ++ e,
               cause := e }

/-- Concrete operation for the C6 witness: fails on attempts 0 and 1,
succeeds with 7 from attempt 2 on. -/
def wOpSucceeds : ℕ → Except String ℕ :=
  fun i => if i < 2 then .error ("boom " ++ toString i) else .ok 7

/-- Concrete operation for the C6 witness: fails on every attempt. -/
def wOpFails : ℕ → Except String ℕ := fun _ => .error "crash"

/- ===================================================================
   src/src/agents/insight_agent.py : confidence scoring
   =================================================================== -/

/-- The base-confidence computation of InsightAgent._calculate_confidence
(before the outlier and evidence-count bonuses and the final clamp),
translated literally from the source: below threshold
0.4 + (m/t)·0.2; between t and 2t, 0.6 + ((m−t)/t)·0.15; beyond 2t,
0.75 + min(0.2, (m−2t)/(2t))·0.2. -/
def baseConfidence (changeMagnitude threshold : ℚ) : ℚ :=
  if changeMagnitude < threshold then
    2/5 + changeMagnitude / threshold * (1/5)
  else if changeMagnitude < threshold * 2 then
    3/5 + (changeMagnitude - threshold) / threshold * (3/20)
  else
    3/4 + min (1/5) ((changeMagnitude - threshold * 2) / (threshold * 2)) * (1/5)

/-- Embedding of InsightAgent._calculate_confidence: base confidence from
baseConfidence, +0.05 bonus when outliers were removed, up to +0.10 bonus
at +0.02 per supporting data point beyond the first, each bonus capped at
max_confidence, and a final clamp to [min_confidence, max_confidence].
A None change_pct returns min_confidence. -/
def calculate_confidence (minConf maxConf : ℚ) (change_pct : Option ℚ)
    (threshold : ℚ) (isOutlierRemoved : Bool) (evidenceCount : ℕ) : ℚ :=
  match change_pct with
  | none => minConf
  | some cp =>
    let base := baseConfidence |cp| threshold
    let base1 := if isOutlierRemoved then min maxConf (base + 1/20) else base
    let base2 :=
      if 1 < evidenceCount then
        min maxConf (base1 + min (1/10) (((evidenceCount : ℚ) - 1) * (1/50)))
      else base1
    max minConf (min maxConf base2)

/- ===================================================================
   src/src/agents/insight_agent.py : adaptive threshold
   =================================================================== -/

/-- np.mean of a sample, in exact arithmetic. -/
def meanQ (l : List ℚ) : ℚ := l.sum / l.length

/-- The square of np.std: the population variance (mean of squared
deviations), in exact arithmetic. -/
def popVar (l : List ℚ) : ℚ :=
  (l.map (fun v => (v - meanQ l) ^ 2)).sum / l.length

/-- Embedding of InsightAgent._compute_adaptive_threshold.  The input list
may contain none entries, modelling the None / non-numeric values that the
source's comprehension filters out.  The source compares
cv = np.std(arr) / |mean| against 0.1 and 0.3; since both sides of each
comparison are non-negative, cv < c holds exactly when cv² < c², so the
embedding compares the rational cv² = popVar / mean² against the squared
cut-offs, staying in exact arithmetic (the equivalence is proved in
adaptive_threshold_bands). -/
def compute_adaptive_threshold (values : List (Option ℚ)) : ℚ :=
  let arr := values.filterMap id
  if arr.length < 2 then 1/10
  else if meanQ arr = 0 then 1/10
  else
    let cvSq := popVar arr / (meanQ arr) ^ 2
    if cvSq < 1/100 then 2/25
    else if cvSq < 9/100 then 1/10
    else 3/20

/- ===================================================================
   Shared data model: evidence dictionaries and insights
   =================================================================== -/

/-- The evidence dictionary attached to an insight.  Every key that any
code path of the repository reads or writes is a field; a none value
models an absent key (Python dict.get with a default). -/
structure Evidence where
  campaign : Option String
  baseline_value : Option ℚ
  current_value : Option ℚ
  absolute_delta : Option ℚ
  relative_delta : Option ℚ
  diagnosis : Option String
  spend : Option ℚ
  impressions_signal : Option ℚ
  campaigns_analyzed : Option ℕ
  note : Option String
  error : Option String
deriving DecidableEq

/-- The empty evidence dictionary. -/
def emptyEvidence : Evidence :=
  { campaign := none, baseline_value := none, current_value := none,
    absolute_delta := none, relative_delta := none, diagnosis := none,
    spend := none, impressions_signal := none, campaigns_analyzed := none,
    note := none, error := none }

/-- The dynamic value found under the "evidence" key of an insight dict.
A dict is the normal case; scalar models a non-container value (for
example a number), on which the evaluator's membership test
('baseline_value' not in evidence) raises a TypeError whose message
embeds the value's type name. -/
inductive EvidenceVal where
  | dict : Evidence → EvidenceVal
  | scalar : String → EvidenceVal
deriving DecidableEq

/-- An insight dictionary as consumed by EvaluatorAgent.validate.  A none
field models an absent key; ins.get defaults are applied at each use
site, as in the source. -/
structure InsightRec where
  hypothesis : Option String
  evidence : Option EvidenceVal
  confidence : Option ℚ
deriving DecidableEq

/- ===================================================================
   src/src/agents/evaluator_agent.py : EvaluatorAgent
   =================================================================== -/

/-- The EvaluatorAgent constructor thresholds. -/
structure EvalConfig where
  severe_threshold : ℚ
  moderate_threshold : ℚ
  high_spend_threshold : ℚ
  critical_revenue_impact : ℚ
deriving DecidableEq

/-- The default EvaluatorAgent thresholds (0.25, 0.15, 10000, 50000). -/
def defaultEvalConfig : EvalConfig :=
  { severe_threshold := 1/4, moderate_threshold := 3/20,
    high_spend_threshold := 10000, critical_revenue_impact := 50000 }

/-- Embedding of EvaluatorAgent._calculate_severity. -/
def calculate_severity (cfg : EvalConfig) (e : Evidence) : String :=
  let relative_delta := |e.relative_delta.getD 0|
  let absolute_delta := |e.absolute_delta.getD 0|
  let baseline_value := e.baseline_value.getD 0
  let spend := e.spend.getD 0
  let revenue_impact := if baseline_value ≠ 0 then |absolute_delta * spend| else 0
  if cfg.critical_revenue_impact < revenue_impact ∨ (1/2 : ℚ) < relative_delta then
    "critical"
  else if cfg.severe_threshold < relative_delta ∨ cfg.high_spend_threshold < spend then
    "high"
  else if cfg.moderate_threshold < relative_delta then "medium"
  else "low"

/-- The result dict of EvaluatorAgent._validate_statistical_significance. -/
structure SigResult where
  is_significant : Bool
  significance_level : String
  normalized_change : ℚ
  validation_method : String
deriving DecidableEq

/-- Embedding of EvaluatorAgent._validate_statistical_significance.  Note
the source defaults baseline_value to 1 here (unlike _calculate_severity,
which defaults it to 0). -/
def validate_statistical_significance (cfg : EvalConfig) (e : Evidence) : SigResult :=
  let relative_delta := |e.relative_delta.getD 0|
  let absolute_delta := |e.absolute_delta.getD 0|
  let baseline_value := e.baseline_value.getD 1
  let normalized_change :=
    if baseline_value ≠ 0 then |absolute_delta / baseline_value| else relative_delta
  { is_significant := cfg.moderate_threshold < normalized_change,
    significance_level :=
      if cfg.severe_threshold < normalized_change then "high" else "moderate",
    normalized_change := pyRoundTo 4 normalized_change,
    validation_method := "percentile_threshold" }

/-- Embedding of EvaluatorAgent._normalize_confidence: +0.1 capped at 1
when the significance level is "high", −0.2 floored at 0 when not
significant, rounded to two decimals. -/
def normalize_confidence (insight_confidence : ℚ) (vr : SigResult) : ℚ :=
  let c1 :=
    if vr.significance_level = "high" then min 1 (insight_confidence + 1/10)
    else insight_confidence
  let c2 := if ¬ vr.is_significant then max 0 (c1 - 1/5) else c1
  pyRoundTo 2 c2

/-- Zero-pad a natural number to k digits. -/
def padZeros (k : ℕ) (n : ℕ) : String :=
  let s := toString n
  String.mk (List.replicate (k - s.length) '0') ++ s

/-- Python's fixed-point format f-string (value:.kf) on an exactly
represented rational. -/
def fmtFixed (decimals : ℕ) (q : ℚ) : String :=
  let scaled := roundHalfEven (q * 10 ^ decimals)
  let a := scaled.natAbs
  (if scaled < 0 then "-" else "") ++ toString (a / 10 ^ decimals) ++ "." ++
    padZeros decimals (a % 10 ^ decimals)

/-- Python's percent format f-string (value:.2%). -/
def fmtPct2 (q : ℚ) : String := fmtFixed 2 (q * 100) ++ "%"

/-- A validated insight as built by EvaluatorAgent.validate.  The
statistical_validation field is absent (none) in the per-insight failure
fallback dict. -/
structure ValidatedInsight where
  hypothesis : String
  evidence : EvidenceVal
  confidence : ℚ
  severity : String
  validation_notes : String
  statistical_validation : Option SigResult
  schema_version : String
deriving DecidableEq

/-- The in-place defaulting of missing required evidence fields performed
by EvaluatorAgent.validate: absent numeric required fields become 0, an
absent diagnosis becomes "unknown".  Present fields are untouched. -/
def fillRequiredDefaults (e : Evidence) : Evidence :=
  { e with
    baseline_value := some (e.baseline_value.getD 0),
    current_value := some (e.current_value.getD 0),
    absolute_delta := some (e.absolute_delta.getD 0),
    relative_delta := some (e.relative_delta.getD 0),
    diagnosis := some (e.diagnosis.getD "unknown") }

/-- The body of the per-insight try block of EvaluatorAgent.validate for a
dict-valued evidence e.  Returns the ValidatedInsight together with the
post-call state of the input insight: when attached is true the evidence
dict belongs to the input insight and the required-field defaulting
mutates it in place; when the insight had no evidence key the defaults go
into a fresh dict and the input is untouched. -/
def processDict (cfg : EvalConfig) (ins : InsightRec) (e : Evidence)
    (attached : Bool) : ValidatedInsight × InsightRec :=
  let e2 := fillRequiredDefaults e
  let vr := validate_statistical_significance cfg e2
  let severity := calculate_severity cfg e2
  let nconf := normalize_confidence (ins.confidence.getD (1/2)) vr
  let notes :=
    (if vr.is_significant then
      ["Statistically significant (" ++ vr.significance_level ++ ") change detected",
       "Normalized change: " ++ fmtPct2 vr.normalized_change]
    else ["Change below significance threshold - flagged for monitoring"]) ++
    ["Severity: " ++ severity ++ " (revenue impact method)"]
  ({ hypothesis := ins.hypothesis.getD "",
     evidence := .dict e2,
     confidence := nconf,
     severity := severity,
     validation_notes := " | ".intercalate notes,
     statistical_validation := some vr,
     schema_version := "2.0" },
   if attached then { ins with evidence := some (.dict e2) } else ins)

/-- The per-insight try block of EvaluatorAgent.validate: a scalar
evidence value raises on the required-field membership test; a dict (or an
absent evidence key, defaulted to a fresh empty dict) is processed. -/
def processInsight (cfg : EvalConfig) (ins : InsightRec) :
    Except String (ValidatedInsight × InsightRec) :=
  match ins.evidence with
  | some (.scalar tyname) =>
    .error ("argument of type '" ++ tyname ++ "' is not iterable")
  | some (.dict e) => .ok (processDict cfg ins e true)
  | none => .ok (processDict cfg ins emptyEvidence false)

/-- One iteration of the validate loop: the except arm converts a failure
into the fallback ValidatedInsight (confidence 0, severity "low", note
embedding the failure message) and leaves the input insight unchanged. -/
def validateStep (cfg : EvalConfig) (ins : InsightRec) :
    ValidatedInsight × InsightRec :=
  match processInsight cfg ins with
  | .ok r => r
  | .error msg =>
    ({ hypothesis := ins.hypothesis.getD "Unknown",
       evidence := ins.evidence.getD (.dict emptyEvidence),
       confidence := 0,
       severity := "low",
       validation_notes := "Validation failed: " ++ msg,
       statistical_validation := none,
       schema_version := "2.0" }, ins)

/-- Embedding of EvaluatorAgent.validate: one ValidatedInsight appended
per input insight.  The second component is the post-call state of the
input list (Python mutates the evidence dicts in place; the embedding
threads that state explicitly).  The unused summary argument of the
source is dropped. -/
def evaluator_validate (cfg : EvalConfig) :
    List InsightRec → List ValidatedInsight × List InsightRec
  | [] => ([], [])
  | ins :: rest =>
    ((validateStep cfg ins).1 :: (evaluator_validate cfg rest).1,
     (validateStep cfg ins).2 :: (evaluator_validate cfg rest).2)

/-- All five required evidence fields are present. -/
def requiredComplete (e : Evidence) : Prop :=
  e.baseline_value.isSome = true ∧ e.current_value.isSome = true ∧
  e.absolute_delta.isSome = true ∧ e.relative_delta.isSome = true ∧
  e.diagnosis.isSome = true

/-- Concrete insight for the C5 witness: empty evidence dict, no
confidence key. -/
def wInsEmpty : InsightRec :=
  { hypothesis := some "h", evidence := some (.dict emptyEvidence),
    confidence := none }

/-- Concrete evidence for the C10 counterexample: only baseline_value is
present, the other required fields are missing. -/
def wEvMissing : Evidence := { emptyEvidence with baseline_value := some 5 }

/-- Concrete insight for the C10 counterexample. -/
def wInsMissing : InsightRec :=
  { hypothesis := some "h", evidence := some (.dict wEvMissing),
    confidence := some (3/4) }

/-- Concrete evidence with all five required fields present, for the C10
witness. -/
def wEvComplete : Evidence :=
  { emptyEvidence with
    baseline_value := some 10, current_value := some 6,
    absolute_delta := some (-4), relative_delta := some (-(2/5)),
    diagnosis := some "d" }

/-- Concrete insight with complete evidence, for the C10 witness. -/
def wInsComplete : InsightRec :=
  { hypothesis := some "h", evidence := some (.dict wEvComplete),
    confidence := some (7/10) }

/- ===================================================================
   src/src/agents/insight_agent.py : outlier filter and generate
   =================================================================== -/

/-- Insert into a sorted list, keeping it sorted. -/
def sortedInsert (x : ℚ) : List ℚ → List ℚ
  | [] => [x]
  | y :: ys => if x ≤ y then x :: y :: ys else y :: sortedInsert x ys

/-- Insertion sort, the ordering np.percentile applies internally. -/
def sortQ : List ℚ → List ℚ
  | [] => []
  | x :: xs => sortedInsert x (sortQ xs)

/-- np.percentile with the default linear interpolation: for a sample of
size n the p-th percentile sits at rank p/100·(n−1) of the sorted sample,
interpolating linearly between the two neighbouring order statistics. -/
def npPercentile (l : List ℚ) (p : ℚ) : ℚ :=
  let s := sortQ l
  let rank := p / 100 * ((s.length : ℚ) - 1)
  let lo := (⌊rank⌋).toNat
  let frac := rank - (⌊rank⌋ : ℚ)
  let a := s.getD lo 0
  let b := s.getD (lo + 1) a
  a + frac * (b - a)

/-- The InsightAgent constructor parameters. -/
structure AgentConfig where
  iqr_multiplier : ℚ
  min_confidence : ℚ
  max_confidence : ℚ
  use_percentile_method : Bool
deriving DecidableEq

/-- The default InsightAgent parameters (1.5, 0.4, 0.95, percentile
method). -/
def defaultAgentConfig : AgentConfig :=
  { iqr_multiplier := 3/2, min_confidence := 2/5, max_confidence := 19/20,
    use_percentile_method := true }

/-- Embedding of InsightAgent._detect_outliers.  The input may contain
none entries (None values in the source); with fewer than 2 entries the
input is returned unfiltered, otherwise the none entries are dropped and
values outside [p10, p90] (percentile method) or outside the IQR fences
(classic method) are removed, together with the removed count. -/
def detect_outliers (cfg : AgentConfig) (values : List (Option ℚ)) :
    List (Option ℚ) × ℕ :=
  if values.length < 2 then (values, 0)
  else
    let arr := values.filterMap id
    if arr.length = 0 then ([], 0)
    else if cfg.use_percentile_method then
      let p90 := npPercentile arr 90
      let p10 := npPercentile arr 10
      let filtered := arr.filter (fun v => decide (p10 ≤ v ∧ v ≤ p90))
      (filtered.map some, arr.length - filtered.length)
    else
      let q1 := npPercentile arr 25
      let q3 := npPercentile arr 75
      let iqr := q3 - q1
      let lowerBound := q1 - cfg.iqr_multiplier * iqr
      let upperBound := q3 + cfg.iqr_multiplier * iqr
      let filtered := arr.filter (fun v => decide (lowerBound ≤ v ∧ v ≤ upperBound))
      (filtered.map some, arr.length - filtered.length)

/-- One campaign drop record of a PeriodSummary's top_drops lists.  The
campaign id is required (the data model guarantees it; its absence would
raise a KeyError in the loop).  Optional keys are Option fields; an
explicitly-None value and an absent key are both modelled as none. -/
structure DropItem where
  campaign : String
  relative_delta : Option ℚ
  change : Option ℚ
  baseline_value : Option ℚ
  current_value : Option ℚ
  absolute_delta : Option ℚ
  spend : Option ℚ
  impressions_change : Option ℚ
deriving DecidableEq

/-- item.get('relative_delta', item.get('change')). -/
def changeOf (it : DropItem) : Option ℚ :=
  match it.relative_delta with
  | some v => some v
  | none => it.change

/-- Python truthiness of an optional float: false for None and 0.0. -/
def truthyQ (o : Option ℚ) : Bool :=
  match o with
  | some v => decide (v ≠ 0)
  | none => false

/-- The change-sample comprehension of generate: keep the selected change
of every item whose relative_delta or change is truthy. -/
def familyChanges (items : List DropItem) : List (Option ℚ) :=
  items.filterMap fun it =>
    if truthyQ it.relative_delta || truthyQ it.change then some (changeOf it)
    else none

/-- The ROAS rules of InsightAgent._diagnose_root_cause, as the list of
accumulated tags: a severity tag (severe below −0.4, else moderate below
−0.2) and, independently, a spend tag above 5000. -/
def roasDiagnosisTags (it : DropItem) : List String :=
  let relative_delta := it.relative_delta.getD 0
  let spend := it.spend.getD 0
  (if relative_delta < -(2/5) then ["severe_performance_degradation"]
   else if relative_delta < -(1/5) then ["moderate_performance_decline"]
   else []) ++
  (if 5000 < spend then ["high_spend_inefficiency"] else [])

/-- The CTR rules of InsightAgent._diagnose_root_cause: creative fatigue
when CTR falls but impressions hold, audience saturation when both fall,
otherwise a general engagement decline. -/
def ctrDiagnosisTags (it : DropItem) : List String :=
  let relative_delta := it.relative_delta.getD 0
  let impressions_change := it.impressions_change.getD 0
  if relative_delta < -(3/20) ∧ -(1/20) < impressions_change then
    ["creative_fatigue"]
  else if relative_delta < -(3/20) ∧ impressions_change < -(1/10) then
    ["audience_saturation"]
  else ["engagement_decline"]

/-- The final join of _diagnose_root_cause: tags joined by " | ", or
"performance_variance" when no rule fired. -/
def diagnose (tags : List String) : String :=
  if tags.isEmpty then "performance_variance" else " | ".intercalate tags

/-- An insight dict as built by InsightAgent.generate. -/
structure Insight where
  hypothesis : String
  evidence : Evidence
  expected_impact : String
  confidence : ℚ
  confidence_level : String
  analysis_type : String
  schema_version : String
deriving DecidableEq

/-- One decision-log entry of InsightAgent.generate.  ROAS entries carry a
confidence_reasoning string, CTR entries an impressions_signal string. -/
structure DecisionLog where
  campaign : String
  metric : String
  trigger : String
  diagnosis : String
  confidence_reasoning : Option String
  impressions_signal : Option String
  baseline : ℚ
  current : ℚ
deriving DecidableEq

/-- The output dict of InsightAgent.generate. -/
structure GenResult where
  insights : List Insight
  decision_logs : List DecisionLog
  schema_version : String
deriving DecidableEq

/-- The body of the ROAS loop of generate for one drop item: skip when the
selected change is absent or not strictly below the negated threshold;
otherwise produce the insight and its decision-log entry. -/
def roasInsightFor (cfg : AgentConfig) (threshold : ℚ) (outliersRemoved : Bool)
    (it : DropItem) : Option (Insight × DecisionLog) :=
  match changeOf it with
  | none => none
  | some change =>
    if -threshold ≤ change then none
    else
      let baseline := it.baseline_value.getD 0
      let current := it.current_value.getD 0
      let absolute_delta := it.absolute_delta.getD (current - baseline)
      let diagnosis := diagnose (roasDiagnosisTags it)
      let confidence := calculate_confidence cfg.min_confidence
        cfg.max_confidence (some change) threshold outliersRemoved 1
      some
        ({ hypothesis := "Campaign '" ++ it.campaign ++
             "' shows decreased return on ad spend (ROAS dropped from " ++
             fmtFixed 2 baseline ++ " to " ++ fmtFixed 2 current ++
             "). Root cause: " ++ diagnosis.replace "_" " " ++ ".",
           evidence := { emptyEvidence with
             campaign := some it.campaign, baseline_value := some baseline,
             current_value := some current,
             absolute_delta := some absolute_delta,
             relative_delta := some change, diagnosis := some diagnosis },
           expected_impact := "Moderate to High",
           confidence := pyRoundTo 2 confidence,
           confidence_level :=
             if 7/10 < confidence then "high"
             else if 1/2 < confidence then "moderate" else "low",
           analysis_type := "roas_performance",
           schema_version := "2.0" },
         { campaign := it.campaign, metric := "ROAS",
           trigger := "Relative drop " ++ fmtPct2 change ++
             " exceeds threshold " ++ fmtPct2 threshold,
           diagnosis := diagnosis,
           confidence_reasoning := some ("Magnitude " ++ fmtFixed 2 |change| ++
             " relative to threshold"),
           impressions_signal := none,
           baseline := baseline, current := current })

/-- The body of the CTR loop of generate for one drop item. -/
def ctrInsightFor (cfg : AgentConfig) (threshold : ℚ) (outliersRemoved : Bool)
    (it : DropItem) : Option (Insight × DecisionLog) :=
  match changeOf it with
  | none => none
  | some change =>
    if -threshold ≤ change then none
    else
      let baseline := it.baseline_value.getD 0
      let current := it.current_value.getD 0
      let absolute_delta := it.absolute_delta.getD (current - baseline)
      let diagnosis := diagnose (ctrDiagnosisTags it)
      let confidence := calculate_confidence cfg.min_confidence
        cfg.max_confidence (some change) threshold outliersRemoved 1
      some
        ({ hypothesis := "Campaign '" ++ it.campaign ++
             "' shows declining click-through rate (CTR dropped from " ++
             fmtFixed 4 baseline ++ " to " ++ fmtFixed 4 current ++
             "). Root cause: " ++ diagnosis.replace "_" " " ++ ".",
           evidence := { emptyEvidence with
             campaign := some it.campaign, baseline_value := some baseline,
             current_value := some current,
             absolute_delta := some absolute_delta,
             relative_delta := some change, diagnosis := some diagnosis,
             impressions_signal := some (it.impressions_change.getD 0) },
           expected_impact := "High on engagement",
           confidence := pyRoundTo 2 confidence,
           confidence_level :=
             if 7/10 < confidence then "high"
             else if 1/2 < confidence then "moderate" else "low",
           analysis_type := "ctr_performance",
           schema_version := "2.0" },
         { campaign := it.campaign, metric := "CTR",
           trigger := "Relative drop " ++ fmtPct2 change ++
             " exceeds threshold " ++ fmtPct2 threshold,
           diagnosis := diagnosis,
           confidence_reasoning := none,
           impressions_signal := some ("Change: " ++
             fmtPct2 (it.impressions_change.getD 0)),
           baseline := baseline, current := current })

/-- A PeriodSummary as read by generate: the campaign list and the two
top_drops families (the date range and overall metrics are unused by
generate). -/
structure Summary where
  campaigns : List String
  roas_drop_campaigns : List DropItem
  ctr_drop_campaigns : List DropItem
deriving DecidableEq

/-- The fallback insight of generate when no family yields a qualifying
record. -/
def fallbackInsight (s : Summary) : Insight :=
  { hypothesis := "No significant performance drops detected across campaigns. " ++
      "Consider analyzing audience targeting refinement, seasonal trends, " ++
      "or bid optimization opportunities.",
    evidence := { emptyEvidence with
      campaigns_analyzed := some s.campaigns.length,
      baseline_value := some 0, current_value := some 0,
      absolute_delta := some 0, relative_delta := some 0,
      diagnosis := some "stable_performance",
      note := some "Stable performance period" },
    expected_impact := "Uncertain",
    confidence := 1/2,
    confidence_level := "low",
    analysis_type := "baseline",
    schema_version := "2.0" }

/-- Embedding of InsightAgent.generate.  Per present family: build the
truthy change sample, filter outliers, compute the adaptive threshold,
and emit one insight plus one decision-log entry per qualifying drop
record; when no insight was produced, emit the single fallback insight.
The enclosing except branch of the source (which appends an error insight)
is unreachable here: every step of the model is total, the only in-loop
raiser being a missing campaign key, which the DropItem data model rules
out. -/
def insight_generate (cfg : AgentConfig) (s : Summary) : GenResult :=
  let roasPairs :=
    if s.roas_drop_campaigns.isEmpty then []
    else
      let changes := familyChanges s.roas_drop_campaigns
      let fo := detect_outliers cfg changes
      let threshold := compute_adaptive_threshold fo.1
      s.roas_drop_campaigns.filterMap
        (roasInsightFor cfg threshold (decide (0 < fo.2)))
  let ctrPairs :=
    if s.ctr_drop_campaigns.isEmpty then []
    else
      let changes := familyChanges s.ctr_drop_campaigns
      let fo := detect_outliers cfg changes
      let threshold := compute_adaptive_threshold fo.1
      s.ctr_drop_campaigns.filterMap
        (ctrInsightFor cfg threshold (decide (0 < fo.2)))
  let insights := roasPairs.map (fun p => p.1) ++ ctrPairs.map (fun p => p.1)
  let logs := roasPairs.map (fun p => p.2) ++ ctrPairs.map (fun p => p.2)
  if insights.isEmpty then
    { insights := [fallbackInsight s], decision_logs := logs,
      schema_version := "2.0" }
  else
    { insights := insights, decision_logs := logs, schema_version := "2.0" }

/-- The dict handed from the Insight Generator to the Evaluator: an
Insight value read back as a generic insight dict. -/
def insightToRec (i : Insight) : InsightRec :=
  { hypothesis := some i.hypothesis, evidence := some (.dict i.evidence),
    confidence := some i.confidence }

/-- The single DropRecord of end-to-end scenario A: baseline 10.0, current
6.0, spend 12000, absolute delta −4.0, relative delta −0.4. -/
def scenarioDropA : DropItem :=
  { campaign := "C1", relative_delta := some (-(2/5)), change := none,
    baseline_value := some 10, current_value := some 6,
    absolute_delta := some (-4), spend := some 12000,
    impressions_change := none }

/-- The PeriodSummary of end-to-end scenario A: one ROAS drop record, no
CTR drop records. -/
def scenarioSummaryA : Summary :=
  { campaigns := ["C1"], roas_drop_campaigns := [scenarioDropA],
    ctr_drop_campaigns := [] }

/- ===================================================================
   src/src/utils/schema_validator.py : validator and upgrader
   =================================================================== -/

/-- A JSON-like dynamic value, the data the schema validator and upgrader
operate on.  Objects are association lists (Python dicts have unique keys;
lookup takes the first match). -/
inductive JVal where
  | null : JVal
  | num : ℚ → JVal
  | boolean : Bool → JVal
  | str : String → JVal
  | arr : List JVal → JVal
  | obj : List (String × JVal) → JVal

/-- dict lookup: fields.get(k) as an Option. -/
def jGet (fields : List (String × JVal)) (k : String) : Option JVal :=
  (fields.find? (fun p => p.1 == k)).map (fun p => p.2)

/-- Python's (v == s) for a string literal s: true only for an equal
string value. -/
def jEqStr (v : JVal) (s : String) : Bool :=
  match v with
  | .str t => t == s
  | _ => false

/-- Python's (v > c) against a numeric literal, for the confidence-tier
synthesis.  A non-numeric v would raise in Python; callers stay inside the
well-formed domain where v is a number. -/
def jNumGt (v : JVal) (c : ℚ) : Bool :=
  match v with
  | .num q => decide (c < q)
  | _ => false

/-- The per-item body of upgrade_insights_to_v2: map the V1 fields onto
the V2 shape, defaulting hypothesis to "", evidence to {},
expected_impact to "Unknown" and the legacy confidence_estimate to 0.5,
synthesizing the confidence tier with the usual high/moderate/low bands
and tagging the analysis type as a legacy conversion.  A non-dict item
would raise in Python (outside the well-formed domain). -/
def upgradeItem (it : JVal) : JVal :=
  match it with
  | .obj fs =>
    let ce := (jGet fs "confidence_estimate").getD (.num (1/2))
    .obj [("hypothesis", (jGet fs "hypothesis").getD (.str "")),
          ("evidence", (jGet fs "evidence").getD (.obj [])),
          ("expected_impact", (jGet fs "expected_impact").getD (.str "Unknown")),
          ("confidence", ce),
          ("confidence_level", .str (if jNumGt ce (7/10) then "high"
            else if jNumGt ce (1/2) then "moderate" else "low")),
          ("analysis_type", .str "legacy_v1_conversion"),
          ("schema_version", .str "2.0")]
  | _ => .null

/-- Embedding of upgrade_insights_to_v2: a fresh dict with the upgraded
items and the "2.0" version tag.  A non-dict input or non-list insights
value would raise in Python (outside the well-formed domain). -/
def upgrade_insights_to_v2 (old : JVal) : JVal :=
  let items :=
    match old with
    | .obj fs =>
      match (jGet fs "insights").getD (.arr []) with
      | .arr l => l
      | _ => []
    | _ => []
  .obj [("insights", .arr (items.map upgradeItem)),
        ("schema_version", .str "2.0")]

/-- The hypothesis type check of validate_insights: present and non-string
is an error. -/
def typeErrStr (o : Option JVal) (msg : String) : List String :=
  match o with
  | some (.str _) => []
  | some _ => [msg]
  | none => []

/-- The evidence type check of validate_insights: present and non-dict is
an error. -/
def typeErrObj (o : Option JVal) (msg : String) : List String :=
  match o with
  | some (.obj _) => []
  | some _ => [msg]
  | none => []

/-- The confidence check of validate_insights: a present non-number (in
Python, not an int/float — a bool counts as an int and both bools lie in
[0, 1]) is one error, a number outside [0, 1] another. -/
def confErr (o : Option JVal) (msgNum msgRange : String) : List String :=
  match o with
  | some (.num q) => if 0 ≤ q ∧ q ≤ 1 then [] else [msgRange]
  | some (.boolean _) => []
  | some _ => [msgNum]
  | none => []

/-- The per-item schema_version check of validate_insights: present and
not equal to the string "2.0" is an error. -/
def verErr (o : Option JVal) (msg : String) : List String :=
  match o with
  | some v => if jEqStr v "2.0" then [] else [msg]
  | none => []

/-- The per-item checks of SchemaValidator.validate_insights: required
fields, hypothesis string, evidence dict, confidence number in [0, 1],
item schema_version "2.0"; a non-dict item is a single error. -/
def validateItem (i : ℕ) (it : JVal) : List String :=
  match it with
  | .obj fs =>
    let missing := (["hypothesis", "evidence", "expected_impact",
        "confidence", "schema_version"].filter
        (fun f => (jGet fs f).isNone)).map
      (fun f => "Insight[" ++ toString i ++ "] missing required field: '" ++
        f ++ "'")
    missing ++
    typeErrStr (jGet fs "hypothesis")
      ("Insight[" ++ toString i ++ "].hypothesis must be a string") ++
    typeErrObj (jGet fs "evidence")
      ("Insight[" ++ toString i ++ "].evidence must be a dictionary") ++
    confErr (jGet fs "confidence")
      ("Insight[" ++ toString i ++ "].confidence must be a number")
      ("Insight[" ++ toString i ++ "].confidence must be between 0 and 1") ++
    verErr (jGet fs "schema_version")
      ("Insight[" ++ toString i ++ "].schema_version must be '2.0'")
  | _ => ["Insight[" ++ toString i ++ "] must be a dictionary"]

/-- Embedding of SchemaValidator.validate_insights: the pass/fail flag and
the exhaustive error list (validation does not stop at the first
error). -/
def validate_insights (v : JVal) : Bool × List String :=
  match v with
  | .obj fs =>
    let e1 := if (jGet fs "insights").isNone then
        ["Missing required field: 'insights'"] else []
    let e2 :=
      match jGet fs "schema_version" with
      | none => ["Missing required field: 'schema_version'"]
      | some sv => if jEqStr sv "2.0" then []
          else ["Invalid schema_version: expected '2.0'"]
    match jGet fs "insights" with
    | some (.arr items) =>
      let itemErrs := (items.enum.map (fun p => validateItem p.1 p.2)).join
      let errors := e1 ++ e2 ++ itemErrs
      (errors.isEmpty, errors)
    | some _ => (false, e1 ++ e2 ++ ["'insights' must be an array"])
    | none => ((e1 ++ e2).isEmpty, e1 ++ e2)
  | _ => (false, ["Root must be a dictionary"])

/-- Written from the spec's words for C8: a well-formed V1 insight is a
dict whose hypothesis, when present, is a string; whose evidence, when
present, is a dict; and whose legacy confidence_estimate, when present,
is a number in [0, 1]. -/
def wellFormedV1Item (it : JVal) : Bool :=
  match it with
  | .obj fs =>
    (match jGet fs "hypothesis" with
     | none => true
     | some (.str _) => true
     | some _ => false) &&
    (match jGet fs "evidence" with
     | none => true
     | some (.obj _) => true
     | some _ => false) &&
    (match jGet fs "confidence_estimate" with
     | none => true
     | some (.num q) => decide (0 ≤ q ∧ q ≤ 1)
     | some _ => false)
  | _ => false

/-- Written from the spec's words for C8: a well-formed V1 insights object
is a dict whose insights value (defaulting to an empty list) is a list of
well-formed V1 insight dicts. -/
def wellFormedV1 (v : JVal) : Bool :=
  match v with
  | .obj fs =>
    (match (jGet fs "insights").getD (.arr []) with
     | .arr items => items.all wellFormedV1Item
     | _ => false)
  | _ => false

/-- Concrete well-formed V1 object for the C8 witness (the self-test
object of the source module). -/
def wV1Sample : JVal :=
  .obj [("insights", .arr [
    .obj [("hypothesis", .str "Old insight"),
          ("evidence", .obj []),
          ("expected_impact", .str "High"),
          ("confidence_estimate", .num 1)]])]

/- ===================================================================
   Theorems
   =================================================================== -/

/-- C4, counterexample.  The claim states that for every pair of numeric
inputs with previous ≠ 0, percent_change(current, previous) equals
(current − previous) / |previous|.  At current = 3, previous = −2 the code
takes its crossing-sign branch and returns (|3| − |−2|) / |−2| = 1/2,
while the claimed formula gives (3 − (−2)) / |−2| = 5/2. -/
theorem percent_change_cx :
    percent_change 3 (-2) 0 = 1/2 ∧
    ((3 : ℚ) - (-2)) / |(-2 : ℚ)| = 5/2 ∧
    (1/2 : ℚ) ≠ 5/2 := by
  refine ⟨?_, by norm_num, by norm_num⟩
  norm_num [percent_change]

/-- C4, amended.  percent_change(current, previous) equals
(current − previous) / |previous| whenever previous ≠ 0 and it is not the
case that previous < 0 < current; in that case relative delta times
|previous| recovers the absolute delta.  When previous < 0 < current the
code instead returns (|current| − |previous|) / |previous|.  When
previous = 0 with current ≠ 0 the supplied default is returned, and when
both are 0 the result is 0. -/
theorem percent_change_characterization (c p d : ℚ) :
    (p ≠ 0 → ¬(p < 0 ∧ 0 < c) →
      percent_change c p d = (c - p) / |p| ∧ percent_change c p d * |p| = c - p) ∧
    (p < 0 → 0 < c → percent_change c p d = (|c| - |p|) / |p|) ∧
    (p = 0 → c ≠ 0 → percent_change c p d = d) ∧
    (p = 0 → c = 0 → percent_change c p d = 0) := by
  unfold percent_change
  refine ⟨?_, ?_, ?_, ?_⟩
  · intro hp hnc
    rw [if_neg (fun h => hp h.2), if_neg hp, if_neg hnc]
    exact ⟨rfl, div_mul_cancel₀ _ (abs_ne_zero.mpr hp)⟩
  · intro hp hc
    rw [if_neg (fun h => absurd h.2 (ne_of_lt hp)), if_neg (ne_of_lt hp),
      if_pos ⟨hp, hc⟩]
  · intro hp hc
    rw [if_neg (fun h => hc h.1), if_pos hp]
  · intro hp hc
    rw [if_pos ⟨hc, hp⟩]

/-- C4, witness: the amended characterization applied at the concrete
input current = 50, previous = 100. -/
theorem percent_change_characterization_wit :
    percent_change 50 100 0 = -(1/2) := by
  have h := ((percent_change_characterization 50 100 0).1
    (by norm_num) (by norm_num)).1
  rw [h]; norm_num

/-- Rounding an integer value to any number of decimals returns it
unchanged. -/
theorem roundHalfEven_intCast (n : ℤ) : roundHalfEven (n : ℚ) = n := by
  unfold roundHalfEven
  rw [Int.floor_intCast]
  norm_num

/-- pyRoundTo fixes integer-valued rationals. -/
theorem pyRoundTo_intCast (k : ℕ) (n : ℤ) : pyRoundTo k (n : ℚ) = n := by
  unfold pyRoundTo
  have h : ((n : ℚ) * 10 ^ k) = ((n * 10 ^ k : ℤ) : ℚ) := by push_cast; ring
  rw [h, roundHalfEven_intCast]
  push_cast
  rw [mul_div_assoc, div_self (pow_ne_zero _ (by norm_num)), mul_one]

/-- pyRoundTo fixes natural-number-valued rationals. -/
theorem pyRoundTo_natCast (k : ℕ) (n : ℕ) : pyRoundTo k (n : ℚ) = n := by
  have h := pyRoundTo_intCast k (n : ℤ)
  push_cast at h
  exact h

/-- The source's count-drift check agrees with the claim's uniform
detection rule. -/
theorem countDetection_eq_spec (t : ℚ) (name : String) (b c : ℕ) :
    countDetection t name b c = specDetect t name b c := by
  unfold countDetection specDetect
  rcases Nat.eq_zero_or_pos b with hb | hb
  · subst hb; norm_num
  · have hbq : ((b : ℚ)) ≠ 0 := Nat.cast_ne_zero.mpr hb.ne'
    have habs : |(b : ℚ)| = (b : ℚ) := abs_of_nonneg (Nat.cast_nonneg b)
    rw [if_pos hb, if_neg hbq, habs, pyRoundTo_natCast, pyRoundTo_natCast]

/-- The source's mean-drift check agrees with the claim's uniform
detection rule. -/
theorem meanDetection_eq_spec (t : ℚ) (name : String) (bm cm : Option ℚ) :
    meanDetection t name bm cm =
      (match bm, cm with
       | some b, some c => specDetect t (name ++ "_mean") b c
       | _, _ => []) := by
  cases bm with
  | none => cases cm <;> rfl
  | some b =>
    cases cm with
    | none => rfl
    | some c =>
      unfold meanDetection specDetect
      dsimp only
      rcases eq_or_ne b 0 with hb | hb
      · subst hb; norm_num
      · rw [if_pos hb, if_neg hb]

/-- C3, counterexample.  The claim states that detect_drift compares the
drop count of each of the two metric families.  With a baseline CTR drop
count of 4 and a current CTR drop count of 0 (all other signals equal),
the relative drift of the CTR drop count is 1, far above the default
threshold 0.15, yet the code records no detection: the source only
compares the ROAS drop count. -/
theorem detect_drift_cx :
    (detect_drift
      (some { campaignCount := 5, roasDropCount := 3, ctrDropCount := 4,
              roasMean := none, ctrMean := none }) (3/20)
      { campaignCount := 5, roasDropCount := 3, ctrDropCount := 0,
        roasMean := none, ctrMean := none }).detections = [] ∧
    (3/20 : ℚ) < |(0 : ℚ) - (4 : ℚ)| / |(4 : ℚ)| := by
  constructor
  · simp [detect_drift, countDetection, meanDetection]
    norm_num
  · norm_num

/-- C3, amended.  For every non-null baseline and every CurrentStats,
detect_drift compares the campaign count, the ROAS-family drop count (the
CTR-family drop count is not compared), and each family's mean
relative-delta, computing relative drift |current − baseline| / |baseline|
(skipping a signal whose baseline value is 0), and records a detection
exactly when that drift exceeds the configured threshold, tagged severity
"high" when the drift exceeds 0.5 and "medium" otherwise. -/
theorem detect_drift_spec (b cur : RunStats) (t : ℚ) :
    (detect_drift (some b) t cur).detections = driftSpecDetections b cur t := by
  unfold detect_drift driftSpecDetections
  dsimp only
  rw [countDetection_eq_spec, countDetection_eq_spec,
    meanDetection_eq_spec, meanDetection_eq_spec]
  split <;> rfl

/-- C9.  For every CurrentStats input and every threshold, if no baseline
is present (the baseline file was absent or unreadable at construction,
so _load_baseline returned None), detect_drift returns a report with
has_drift = false, severity "none", and an empty detections list. -/
theorem detect_drift_no_baseline (t : ℚ) (cur : RunStats) :
    detect_drift none t cur =
      { has_drift := false, severity := "none", detections := [] } := rfl

/-- If the first k attempts starting at i fail and attempt i + k succeeds
with v, the attempt loop returns v provided k does not exceed the number
of remaining retries. -/
theorem tryAttempts_ok {α : Type} (op : ℕ → Except String α) (v : α) :
    ∀ k n i, k ≤ n → (∀ j, j < k → ∃ e, op (i + j) = .error e) →
      op (i + k) = .ok v → tryAttempts op i n = .ok v := by
  intro k
  induction k with
  | zero =>
    intro n i _ _ hs
    rw [Nat.add_zero] at hs
    cases n with
    | zero => simpa [tryAttempts] using hs
    | succ m => simp [tryAttempts, hs]
  | succ k ih =>
    intro n i hk hf hs
    cases n with
    | zero => omega
    | succ m =>
      obtain ⟨e, he⟩ := hf 0 (Nat.succ_pos k)
      rw [Nat.add_zero] at he
      simp only [tryAttempts, he]
      refine ih m (i + 1) (Nat.succ_le_succ_iff.mp hk) ?_ ?_
      · intro j hj
        obtain ⟨e', he'⟩ := hf (j + 1) (Nat.succ_lt_succ hj)
        exact ⟨e', by rw [show i + 1 + j = i + (j + 1) from by omega]; exact he'⟩
      · rw [show i + 1 + k = i + (k + 1) from by omega]; exact hs

/-- If every attempt from i through i + n fails, the attempt loop returns
the final attempt's exception. -/
theorem tryAttempts_err {α : Type} (op : ℕ → Except String α) (es : ℕ → String) :
    ∀ n i, (∀ j, j ≤ n → op (i + j) = .error (es (i + j))) →
      tryAttempts op i n = .error (es (i + n)) := by
  intro n
  induction n with
  | zero =>
    intro i h
    simpa [tryAttempts] using h 0 (le_refl 0)
  | succ m ih =>
    intro i h
    have h0 : op i = .error (es i) := by simpa using h 0 (Nat.zero_le _)
    simp only [tryAttempts, h0]
    have hrec := ih (i + 1) (fun j hj => by
      have hh := h (j + 1) (Nat.succ_le_succ hj)
      rw [show i + (j + 1) = i + 1 + j from by omega] at hh
      exact hh)
    rw [hrec, show i + 1 + m = i + (m + 1) from by omega]

/-- C6.  For every wrapped operation that fails exactly k times and then
succeeds, with max_retries ≥ k, safe_call returns the operation's success
value; and when all max_retries + 1 attempts fail, it returns the supplied
fallback value if one was supplied, otherwise it raises the configured
error classification exception with the original (final) exception
preserved as its cause. -/
theorem safe_call_spec {α : Type} (errorType : String) (maxRetries k : ℕ)
    (fallback : Option α) (op : ℕ → Except String α) (v : α) (es : ℕ → String) :
    (k ≤ maxRetries → (∀ j, j < k → ∃ e, op j = .error e) → op k = .ok v →
      safe_call errorType maxRetries fallback op = .ok v) ∧
    ((∀ i, i ≤ maxRetries → op i = .error (es i)) →
      (∀ f, fallback = some f →
        safe_call errorType maxRetries fallback op = .ok f) ∧
      (fallback = none →
        safe_call errorType maxRetries fallback op =
          .error { classification := errorType,
                   message := "failed after " ++ toString (maxRetries + 1) ++
                     " attempts: " ++ es maxRetries,
                   cause := es maxRetries })) := by
  constructor
  · intro hk hf hs
    unfold safe_call
    rw [tryAttempts_ok op v k maxRetries 0 hk
      (fun j hj => by simpa using hf j hj) (by simpa using hs)]
  · intro hall
    have ht := tryAttempts_err op es maxRetries 0
      (fun j hj => by simpa using hall j hj)
    rw [Nat.zero_add] at ht
    refine ⟨fun f hf => ?_, fun hf => ?_⟩
    · unfold safe_call; rw [ht, hf]
    · unfold safe_call; rw [ht, hf]

/-- C6, witness: safe_call applied to an operation failing twice then
succeeding (max_retries 3), to an always-failing operation with a
fallback, and to an always-failing operation without a fallback. -/
theorem safe_call_spec_wit :
    safe_call "UnexpectedError" 3 (none : Option ℕ) wOpSucceeds = .ok 7 ∧
    safe_call "DataError" 1 (some 42) wOpFails = .ok 42 ∧
    safe_call "DataError" 1 (none : Option ℕ) wOpFails =
      .error { classification := "DataError",
               message := "failed after 2 attempts: crash",
               cause := "crash" } := by
  refine ⟨?_, ?_, ?_⟩
  · exact (safe_call_spec "UnexpectedError" 3 2 none wOpSucceeds 7
      (fun _ => "")).1 (by norm_num)
      (fun j hj => ⟨"boom " ++ toString j, by unfold wOpSucceeds; rw [if_pos hj]⟩)
      (by unfold wOpSucceeds; norm_num)
  · exact ((safe_call_spec "DataError" 1 0 (some 42) wOpFails 0
      (fun _ => "crash")).2 (fun i _ => rfl)).1 42 rfl
  · exact ((safe_call_spec "DataError" 1 0 (none : Option ℕ) wOpFails 0
      (fun _ => "crash")).2 (fun i _ => rfl)).2 rfl

/-- C2.  The claim states the base confidence rises from 0.75 toward a
ceiling of 0.95 beyond twice the threshold, saturating at four times the
threshold, matching the source's own inline comment (0.75-0.95) and the
clamp ceiling max_confidence = 0.95.  The code instead computes
0.75 + min(0.2, (m−2t)/(2t))·0.2, which saturates at 0.79 once m reaches
2.4t: at threshold 0.1 and magnitude 0.4 (= 4t) it yields 0.79, not 0.95,
and it stays at 0.79 for every larger magnitude (here magnitude 1 = 10t).
The first two bands behave as claimed. -/
theorem base_confidence_band3_bug :
    baseConfidence (2/5) (1/10) = 79/100 ∧
    baseConfidence 1 (1/10) = 79/100 ∧
    (79/100 : ℚ) < 19/20 := by
  refine ⟨?_, ?_, by norm_num⟩
  · norm_num [baseConfidence, min_def]
  · norm_num [baseConfidence, min_def]

/-- The population variance is non-negative. -/
theorem popVar_nonneg (l : List ℚ) : 0 ≤ popVar l := by
  unfold popVar
  apply div_nonneg
  · apply List.sum_nonneg
    intro x hx
    obtain ⟨v, _, rfl⟩ := List.mem_map.mp hx
    positivity
  · exact Nat.cast_nonneg _

/-- For a non-zero mean, the coefficient of variation
std / |mean| = sqrt(var) / |mean| is below a positive cut-off exactly when
the rational var / mean² is below the squared cut-off. -/
theorem cv_lt_iff (var m c : ℚ) (hm : m ≠ 0) (hc : 0 < c) :
    (Real.sqrt (var : ℝ) / |(m : ℝ)| < (c : ℝ)) ↔ var / m ^ 2 < c ^ 2 := by
  have hmabs : (0 : ℝ) < |(m : ℝ)| := abs_pos.mpr (Rat.cast_ne_zero.mpr hm)
  have hm2 : (0 : ℚ) < m ^ 2 := by positivity
  have hcm : (0 : ℝ) < (c : ℝ) * |(m : ℝ)| := by
    apply mul_pos _ hmabs
    exact_mod_cast hc
  rw [div_lt_iff hmabs, Real.sqrt_lt' hcm, mul_pow, sq_abs, div_lt_iff hm2]
  constructor
  · intro h; exact_mod_cast h
  · intro h; exact_mod_cast h

/-- C7.  The adaptive threshold calculator returns the default 0.10 when
the sample has fewer than 2 numeric values or its mean is zero; otherwise
it returns 0.08 when CV < 0.1, 0.10 when 0.1 ≤ CV < 0.3, and 0.15 when
CV ≥ 0.3, where CV = population standard deviation / |mean|; and it never
returns any value outside {0.08, 0.10, 0.15} (the embedded function is
total, so it never raises). -/
theorem adaptive_threshold_bands (values : List (Option ℚ)) :
    ((values.filterMap id).length < 2 →
      compute_adaptive_threshold values = 1/10) ∧
    (¬ (values.filterMap id).length < 2 →
      meanQ (values.filterMap id) = 0 →
      compute_adaptive_threshold values = 1/10) ∧
    (¬ (values.filterMap id).length < 2 →
      meanQ (values.filterMap id) ≠ 0 →
      ((Real.sqrt (popVar (values.filterMap id) : ℝ) /
          |(meanQ (values.filterMap id) : ℝ)| < 1/10 →
        compute_adaptive_threshold values = 2/25) ∧
       (1/10 ≤ Real.sqrt (popVar (values.filterMap id) : ℝ) /
          |(meanQ (values.filterMap id) : ℝ)| →
        Real.sqrt (popVar (values.filterMap id) : ℝ) /
          |(meanQ (values.filterMap id) : ℝ)| < 3/10 →
        compute_adaptive_threshold values = 1/10) ∧
       (3/10 ≤ Real.sqrt (popVar (values.filterMap id) : ℝ) /
          |(meanQ (values.filterMap id) : ℝ)| →
        compute_adaptive_threshold values = 3/20))) ∧
    (compute_adaptive_threshold values = 2/25 ∨
     compute_adaptive_threshold values = 1/10 ∨
     compute_adaptive_threshold values = 3/20) := by
  have h01 : ((1/10 : ℚ) : ℝ) = 1/10 := by norm_num
  have h03 : ((3/10 : ℚ) : ℝ) = 3/10 := by norm_num
  refine ⟨?_, ?_, ?_, ?_⟩
  · intro h
    unfold compute_adaptive_threshold
    rw [if_pos h]
  · intro h2 hm
    unfold compute_adaptive_threshold
    rw [if_neg h2, if_pos hm]
  · intro h2 hm
    have hiff1 := cv_lt_iff (popVar (values.filterMap id))
      (meanQ (values.filterMap id)) (1/10) hm (by norm_num)
    have hiff3 := cv_lt_iff (popVar (values.filterMap id))
      (meanQ (values.filterMap id)) (3/10) hm (by norm_num)
    rw [h01] at hiff1
    rw [h03] at hiff3
    refine ⟨?_, ?_, ?_⟩
    · intro hcv
      unfold compute_adaptive_threshold
      rw [if_neg h2, if_neg hm, if_pos (by
        have := hiff1.mp hcv
        norm_num at this ⊢
        convert this using 2)]
    · intro hge hlt
      unfold compute_adaptive_threshold
      rw [if_neg h2, if_neg hm, if_neg (by
        intro hlt1
        have := hiff1.mpr (by norm_num at hlt1 ⊢; convert hlt1 using 2)
        exact absurd this (not_lt.mpr hge)), if_pos (by
        have := hiff3.mp hlt
        norm_num at this ⊢
        convert this using 2)]
    · intro hge
      unfold compute_adaptive_threshold
      rw [if_neg h2, if_neg hm, if_neg (by
        intro hlt1
        have := hiff1.mpr (by norm_num at hlt1 ⊢; convert hlt1 using 2)
        exact absurd this (not_lt.mpr (le_trans (by norm_num) hge))), if_neg (by
        intro hlt3
        have := hiff3.mpr (by norm_num at hlt3 ⊢; convert hlt3 using 2)
        exact absurd this (not_lt.mpr hge))]
  · unfold compute_adaptive_threshold
    dsimp only
    split
    · right; left; rfl
    · split
      · right; left; rfl
      · split
        · left; rfl
        · split
          · right; left; rfl
          · right; right; rfl

/-- C7, witness: two equal values give a zero variance, hence CV = 0, the
low-noise band, and the strict threshold 0.08. -/
theorem adaptive_threshold_bands_wit :
    compute_adaptive_threshold [some 1, some 1] = 2/25 := by
  have harr : ([some 1, some 1] : List (Option ℚ)).filterMap id = [1, 1] := rfl
  have hmean : meanQ [(1 : ℚ), 1] = 1 := by
    unfold meanQ
    norm_num
  have hvar : popVar [(1 : ℚ), 1] = 0 := by
    unfold popVar
    rw [hmean]
    norm_num
  refine ((adaptive_threshold_bands [some 1, some 1]).2.2.1 ?_ ?_).1 ?_
  · rw [harr]; norm_num
  · rw [harr, hmean]; norm_num
  · rw [harr, hmean, hvar]
    norm_num [Real.sqrt_zero]

/-- Python's round-half-to-even stays within half a unit of its input. -/
theorem roundHalfEven_bounds (q : ℚ) :
    q - 1/2 ≤ (roundHalfEven q : ℚ) ∧ (roundHalfEven q : ℚ) ≤ q + 1/2 := by
  unfold roundHalfEven
  have hf1 : (⌊q⌋ : ℚ) ≤ q := Int.floor_le q
  have hf2 : q < ⌊q⌋ + 1 := Int.lt_floor_add_one q
  dsimp only
  split
  · rename_i h1
    constructor <;> linarith
  · split
    · rename_i h1 h2
      push_cast
      constructor <;> linarith
    · rename_i h1 h2
      have heq : q - ⌊q⌋ = 1/2 := le_antisymm (not_lt.mp h2) (not_lt.mp h1)
      split <;> push_cast <;> constructor <;> linarith

/-- Rounding to k decimals preserves membership in [0, 1]. -/
theorem pyRoundTo_unit (k : ℕ) (x : ℚ) (h0 : 0 ≤ x) (h1 : x ≤ 1) :
    0 ≤ pyRoundTo k x ∧ pyRoundTo k x ≤ 1 := by
  unfold pyRoundTo
  have hp : (0 : ℚ) < 10 ^ k := by positivity
  obtain ⟨hl, hr⟩ := roundHalfEven_bounds (x * 10 ^ k)
  have hx0 : (0 : ℚ) ≤ x * 10 ^ k := mul_nonneg h0 hp.le
  have hx1 : x * 10 ^ k ≤ 10 ^ k := by nlinarith
  have hn0 : (0 : ℤ) ≤ roundHalfEven (x * 10 ^ k) := by
    by_contra hneg
    push_neg at hneg
    have h2 : roundHalfEven (x * 10 ^ k) ≤ -1 := by omega
    have h3 : (roundHalfEven (x * 10 ^ k) : ℚ) ≤ -1 := by exact_mod_cast h2
    linarith
  have hn1 : roundHalfEven (x * 10 ^ k) ≤ 10 ^ k := by
    by_contra hgt
    push_neg at hgt
    have h2 : (10 : ℤ) ^ k + 1 ≤ roundHalfEven (x * 10 ^ k) := by omega
    have h3 : ((10 : ℤ) ^ k : ℚ) + 1 ≤ (roundHalfEven (x * 10 ^ k) : ℚ) := by
      exact_mod_cast h2
    push_cast at h3
    linarith
  constructor
  · apply div_nonneg _ hp.le
    exact_mod_cast hn0
  · rw [div_le_one hp]
    exact_mod_cast hn1

/-- The confidence normalizer maps [0, 1] into [0, 1]. -/
theorem normalize_confidence_unit (c : ℚ) (vr : SigResult)
    (h0 : 0 ≤ c) (h1 : c ≤ 1) :
    0 ≤ normalize_confidence c vr ∧ normalize_confidence c vr ≤ 1 := by
  unfold normalize_confidence
  dsimp only
  apply pyRoundTo_unit
  · split
    · exact le_max_left 0 _
    · split
      · exact le_min (by norm_num) (by linarith)
      · exact h0
  · split
    · apply max_le (by norm_num)
      split
      · have hm : min 1 (c + 1/10) ≤ 1 := min_le_left _ _
        linarith
      · linarith
    · split
      · exact min_le_left _ _
      · exact h1

/-- The severity classifier is total over the four tiers. -/
theorem calculate_severity_mem (cfg : EvalConfig) (e : Evidence) :
    calculate_severity cfg e = "critical" ∨ calculate_severity cfg e = "high" ∨
    calculate_severity cfg e = "medium" ∨ calculate_severity cfg e = "low" := by
  unfold calculate_severity
  dsimp only
  repeat' split
  all_goals simp

/-- Both outputs of the validate loop have one entry per input. -/
theorem evaluator_validate_length (cfg : EvalConfig) (l : List InsightRec) :
    (evaluator_validate cfg l).1.length = l.length ∧
    (evaluator_validate cfg l).2.length = l.length := by
  induction l with
  | nil => exact ⟨rfl, rfl⟩
  | cons a rest ih => simp [evaluator_validate, ih.1, ih.2]

/-- The i-th entries of both outputs of the validate loop come from the
i-th input insight. -/
theorem evaluator_validate_get (cfg : EvalConfig) :
    ∀ (l : List InsightRec) (i : ℕ) (ins0 : InsightRec), l.get? i = some ins0 →
      (evaluator_validate cfg l).1.get? i = some (validateStep cfg ins0).1 ∧
      (evaluator_validate cfg l).2.get? i = some (validateStep cfg ins0).2 := by
  intro l
  induction l with
  | nil => intro i ins0 h; simp at h
  | cons a rest ih =>
    intro i ins0 h
    cases i with
    | zero =>
      rw [List.get?_cons_zero] at h
      obtain rfl := Option.some.inj h
      exact ⟨rfl, rfl⟩
    | succ n =>
      rw [List.get?_cons_succ] at h
      obtain ⟨h1, h2⟩ := ih n ins0 h
      exact ⟨h1, h2⟩

/-- Filling already-present required fields is the identity. -/
theorem fillRequiredDefaults_of_complete (e : Evidence)
    (h : requiredComplete e) : fillRequiredDefaults e = e := by
  rcases e with ⟨camp, bv, cv, ad, rd, dg, sp, im, ca, nt, er⟩
  obtain ⟨h1, h2, h3, h4, h5⟩ := h
  obtain ⟨b, hb⟩ := Option.isSome_iff_exists.mp h1
  obtain ⟨c, hc⟩ := Option.isSome_iff_exists.mp h2
  obtain ⟨a, ha⟩ := Option.isSome_iff_exists.mp h3
  obtain ⟨r, hr⟩ := Option.isSome_iff_exists.mp h4
  obtain ⟨d, hd⟩ := Option.isSome_iff_exists.mp h5
  subst hb; subst hc; subst ha; subst hr; subst hd
  rfl

/-- C5.  EvaluatorAgent.validate never raises (the embedding is total) and
returns exactly one ValidatedInsight per input Insight, in input order; an
insight with an empty evidence dict (and any confidence within [0,1], or
none) yields a ValidatedInsight with a severity present and confidence in
[0,1]; and a failure while processing any single insight is converted into
a ValidatedInsight with confidence 0.0, severity "low", and a validation
note embedding the failure message, without aborting the rest of the
batch. -/
theorem evaluator_validate_spec (cfg : EvalConfig) (l : List InsightRec) :
    ((evaluator_validate cfg l).1.length = l.length) ∧
    (∀ i ins0, l.get? i = some ins0 →
      (evaluator_validate cfg l).1.get? i = some (validateStep cfg ins0).1) ∧
    (∀ i ins0, l.get? i = some ins0 →
      ins0.evidence = some (.dict emptyEvidence) →
      (∀ c, ins0.confidence = some c → 0 ≤ c ∧ c ≤ 1) →
      ∃ v, (evaluator_validate cfg l).1.get? i = some v ∧
        (v.severity = "critical" ∨ v.severity = "high" ∨
         v.severity = "medium" ∨ v.severity = "low") ∧
        0 ≤ v.confidence ∧ v.confidence ≤ 1) ∧
    (∀ i ins0 msg, l.get? i = some ins0 → processInsight cfg ins0 = .error msg →
      (evaluator_validate cfg l).1.get? i = some
        { hypothesis := ins0.hypothesis.getD "Unknown",
          evidence := ins0.evidence.getD (.dict emptyEvidence),
          confidence := 0, severity := "low",
          validation_notes := "Validation failed: " ++ msg,
          statistical_validation := none, schema_version := "2.0" }) := by
  refine ⟨(evaluator_validate_length cfg l).1, ?_, ?_, ?_⟩
  · intro i ins0 h
    exact (evaluator_validate_get cfg l i ins0 h).1
  · intro i ins0 h hev hconf
    have hstep : validateStep cfg ins0 = processDict cfg ins0 emptyEvidence true := by
      unfold validateStep processInsight
      rw [hev]
    refine ⟨(validateStep cfg ins0).1, (evaluator_validate_get cfg l i ins0 h).1,
      ?_, ?_⟩
    · rw [hstep]
      exact calculate_severity_mem cfg (fillRequiredDefaults emptyEvidence)
    · rw [hstep]
      have hcd : 0 ≤ ins0.confidence.getD (1/2) ∧ ins0.confidence.getD (1/2) ≤ 1 := by
        cases hc : ins0.confidence with
        | none => norm_num
        | some c => simpa using hconf c hc
      exact normalize_confidence_unit _ _ hcd.1 hcd.2
  · intro i ins0 msg h herr
    rw [(evaluator_validate_get cfg l i ins0 h).1]
    unfold validateStep
    rw [herr]

/-- C5, witness: the spec applied to a one-insight batch whose insight has
an empty evidence dict and no confidence key. -/
theorem evaluator_validate_spec_wit :
    ∃ v, (evaluator_validate defaultEvalConfig [wInsEmpty]).1.get? 0 = some v ∧
      (v.severity = "critical" ∨ v.severity = "high" ∨
       v.severity = "medium" ∨ v.severity = "low") ∧
      0 ≤ v.confidence ∧ v.confidence ≤ 1 := by
  refine (evaluator_validate_spec defaultEvalConfig [wInsEmpty]).2.2.1
    0 wInsEmpty rfl rfl ?_
  intro c hc
  simp [wInsEmpty] at hc

/-- C10, counterexample.  The claim states validate leaves every field of
every input insight's evidence unchanged.  For an insight whose evidence
dict misses required fields (here only baseline_value is present),
validate writes the defaults into that same dict: after the call the
input insight's evidence has relative_delta 0, diagnosis "unknown", and
so on, so the input is not unchanged. -/
theorem evaluator_validate_mutation_cx :
    (evaluator_validate defaultEvalConfig [wInsMissing]).2 =
      [{ wInsMissing with
          evidence := some (.dict (fillRequiredDefaults wEvMissing)) }] ∧
    (evaluator_validate defaultEvalConfig [wInsMissing]).2 ≠ [wInsMissing] := by
  have heq : (evaluator_validate defaultEvalConfig [wInsMissing]).2 =
      [{ wInsMissing with
          evidence := some (.dict (fillRequiredDefaults wEvMissing)) }] := rfl
  refine ⟨heq, ?_⟩
  rw [heq]
  intro hcontra
  simp [wInsMissing, wEvMissing, fillRequiredDefaults, emptyEvidence] at hcontra

/-- C10, amended.  validate leaves each input Insight unchanged whenever
its evidence is not a dict missing required fields (in particular every
Insight produced by the Insight Generator, whose evidence always carries
all five required fields); the only in-place change it ever makes is
filling absent required evidence fields with their defaults. -/
theorem evaluator_validate_frame (cfg : EvalConfig) (l : List InsightRec) :
    ((evaluator_validate cfg l).2.length = l.length) ∧
    (∀ i ins0, l.get? i = some ins0 →
      (∀ e, ins0.evidence = some (.dict e) → requiredComplete e) →
      (evaluator_validate cfg l).2.get? i = some ins0) ∧
    (∀ i ins0 e, l.get? i = some ins0 → ins0.evidence = some (.dict e) →
      (evaluator_validate cfg l).2.get? i =
        some { ins0 with evidence := some (.dict (fillRequiredDefaults e)) }) := by
  refine ⟨(evaluator_validate_length cfg l).2, ?_, ?_⟩
  · intro i ins0 h hcomp
    rw [(evaluator_validate_get cfg l i ins0 h).2]
    congr 1
    cases hev : ins0.evidence with
    | none =>
      unfold validateStep processInsight
      rw [hev]
      rfl
    | some ev =>
      cases ev with
      | scalar msg =>
        unfold validateStep processInsight
        rw [hev]
      | dict e =>
        unfold validateStep processInsight
        rw [hev]
        have hfe : fillRequiredDefaults e = e :=
          fillRequiredDefaults_of_complete e (hcomp e hev)
        show { ins0 with evidence := some (.dict (fillRequiredDefaults e)) } = ins0
        rw [hfe, ← hev]
  · intro i ins0 e h hev
    rw [(evaluator_validate_get cfg l i ins0 h).2]
    congr 1
    unfold validateStep processInsight
    rw [hev]
    rfl

/-- C10, witness: the frame theorem applied to a one-insight batch with
complete evidence, which validate returns unchanged. -/
theorem evaluator_validate_frame_wit :
    (evaluator_validate defaultEvalConfig [wInsComplete]).2.get? 0 =
      some wInsComplete := by
  refine (evaluator_validate_frame defaultEvalConfig [wInsComplete]).2.1
    0 wInsComplete rfl ?_
  intro e he
  have h2 : EvidenceVal.dict wEvComplete = EvidenceVal.dict e :=
    Option.some.inj he
  obtain rfl : wEvComplete = e := EvidenceVal.dict.inj h2
  exact ⟨rfl, rfl, rfl, rfl, rfl⟩

/-- The diagnosis tags of scenario A's drop record: the relative delta is
exactly −0.4, the strict test of the severe rule (< −0.4) fails, the
moderate rule fires, and the spend rule fires. -/
theorem scenarioA_tags :
    roasDiagnosisTags scenarioDropA =
      ["moderate_performance_decline", "high_spend_inefficiency"] := by
  unfold roasDiagnosisTags scenarioDropA
  norm_num

/-- C1, counterexample.  The claim states the single insight's diagnosis
contains "severe_performance_degradation".  At relative delta exactly
−0.4 the severe rule's strict comparison fails: the diagnosis tag list is
[moderate_performance_decline, high_spend_inefficiency], the severe tag is
absent, and the emitted insight's diagnosis string is their join. -/
theorem insight_generate_scenarioA_cx :
    "severe_performance_degradation" ∉ roasDiagnosisTags scenarioDropA ∧
    (insight_generate defaultAgentConfig scenarioSummaryA).insights.map
        (fun i => i.evidence.diagnosis) =
      [some "moderate_performance_decline | high_spend_inefficiency"] := by
  constructor
  · rw [scenarioA_tags]
    simp
  · norm_num [insight_generate, scenarioSummaryA, scenarioDropA, familyChanges,
      truthyQ, changeOf, detect_outliers, compute_adaptive_threshold,
      roasInsightFor, diagnose, roasDiagnosisTags, List.filterMap]
    rfl

/-- C1, amended.  For the scenario-A summary (one ROAS DropRecord with
baseline 10.0, current 6.0, spend 12000, relative delta −0.4, absolute
delta −4.0), InsightAgent.generate emits exactly one insight, whose
evidence diagnosis contains both "moderate_performance_decline" and
"high_spend_inefficiency" (the severe tag needs a delta strictly below
−0.4), and EvaluatorAgent.validate with the default thresholds assigns
that insight severity "high". -/
theorem insight_generate_scenarioA_amended :
    (insight_generate defaultAgentConfig scenarioSummaryA).insights.length = 1 ∧
    "moderate_performance_decline" ∈ roasDiagnosisTags scenarioDropA ∧
    "high_spend_inefficiency" ∈ roasDiagnosisTags scenarioDropA ∧
    (insight_generate defaultAgentConfig scenarioSummaryA).insights.map
        (fun i => i.evidence.diagnosis) =
      [some (" | ".intercalate (roasDiagnosisTags scenarioDropA))] ∧
    ((evaluator_validate defaultEvalConfig
        ((insight_generate defaultAgentConfig scenarioSummaryA).insights.map
          insightToRec)).1.map (fun v => v.severity)) = ["high"] := by
  refine ⟨?_, ?_, ?_, ?_, ?_⟩
  · norm_num [insight_generate, scenarioSummaryA, scenarioDropA, familyChanges,
      truthyQ, changeOf, detect_outliers, compute_adaptive_threshold,
      roasInsightFor, diagnose, roasDiagnosisTags, List.filterMap]
  · rw [scenarioA_tags]; simp
  · rw [scenarioA_tags]; simp
  · rw [scenarioA_tags]
    norm_num [insight_generate, scenarioSummaryA, scenarioDropA, familyChanges,
      truthyQ, changeOf, detect_outliers, compute_adaptive_threshold,
      roasInsightFor, diagnose, roasDiagnosisTags, List.filterMap]
  · norm_num [insight_generate, scenarioSummaryA, scenarioDropA, familyChanges,
      truthyQ, changeOf, detect_outliers, compute_adaptive_threshold,
      roasInsightFor, diagnose, roasDiagnosisTags, List.filterMap, insightToRec,
      evaluator_validate, validateStep, processInsight, processDict,
      calculate_severity, fillRequiredDefaults, emptyEvidence, defaultEvalConfig]
    norm_num [abs_of_pos]

theorem jGet_nil (s : String) : jGet [] s = none := rfl

theorem jGet_hit (k : String) (v : JVal) (rest : List (String × JVal)) :
    jGet ((k, v) :: rest) k = some v := by
  simp [jGet, List.find?]

theorem jGet_miss (k : String) (v : JVal) (rest : List (String × JVal))
    (s : String) (h : (k == s) = false) :
    jGet ((k, v) :: rest) s = jGet rest s := by
  simp [jGet, List.find?, h]

theorem typeErrStr_upgraded (o : Option JVal) (d msg : String)
    (h : (match o with
          | none => true
          | some (.str _) => true
          | some _ => false) = true) :
    typeErrStr (some (o.getD (.str d))) msg = [] := by
  cases o with
  | none => rfl
  | some v => cases v <;> simp_all [typeErrStr]

theorem typeErrObj_upgraded (o : Option JVal) (d : List (String × JVal))
    (msg : String)
    (h : (match o with
          | none => true
          | some (.obj _) => true
          | some _ => false) = true) :
    typeErrObj (some (o.getD (.obj d))) msg = [] := by
  cases o with
  | none => rfl
  | some v => cases v <;> simp_all [typeErrObj]

theorem confErr_upgraded (o : Option JVal) (m1 m2 : String)
    (h : (match o with
          | none => true
          | some (.num q) => decide (0 ≤ q ∧ q ≤ 1)
          | some _ => false) = true) :
    confErr (some (o.getD (.num (1/2)))) m1 m2 = [] := by
  cases o with
  | none =>
    simp [confErr, Option.getD]
    norm_num
  | some v =>
    cases v <;> simp_all [confErr]

theorem validateItem_upgradeItem (i : ℕ) (it : JVal)
    (h : wellFormedV1Item it = true) : validateItem i (upgradeItem it) = [] := by
  cases it with
  | obj fs =>
    unfold wellFormedV1Item at h
    rw [Bool.and_eq_true, Bool.and_eq_true] at h
    obtain ⟨⟨hh, he⟩, hc⟩ := h
    simp only [upgradeItem, validateItem]
    simp [-one_div, jGet_hit, jGet_miss, jGet_nil,
      typeErrStr_upgraded _ _ _ hh, typeErrObj_upgraded _ _ _ he,
      confErr_upgraded _ _ _ hc, verErr, jEqStr]
  | null => simp [wellFormedV1Item] at h
  | num q => simp [wellFormedV1Item] at h
  | boolean b => simp [wellFormedV1Item] at h
  | str s => simp [wellFormedV1Item] at h
  | arr l => simp [wellFormedV1Item] at h

theorem join_validate_upgrade (items : List JVal) :
    ∀ k, items.all wellFormedV1Item = true →
      (((items.map upgradeItem).enumFrom k).map
        (fun p => validateItem p.1 p.2)).join = [] := by
  induction items with
  | nil => intro k _; rfl
  | cons a rest ih =>
    intro k h
    rw [List.all_cons, Bool.and_eq_true] at h
    simp [List.enumFrom, validateItem_upgradeItem k a h.1, ih (k + 1) h.2]

/-- C8.  For every well-formed V1 insights object, validating the output
of the V1-to-V2 upgrade succeeds: is_valid is true and the error list is
empty. -/
theorem validate_upgrade_v1 (v : JVal) (h : wellFormedV1 v = true) :
    validate_insights (upgrade_insights_to_v2 v) = (true, []) := by
  cases v with
  | obj fs =>
    simp only [wellFormedV1] at h
    cases hins : (jGet fs "insights").getD (.arr []) with
    | arr items =>
      rw [hins] at h
      simp only at h
      simp only [upgrade_insights_to_v2]
      rw [hins]
      simp only [validate_insights]
      simp [jGet_hit, jGet_miss, jGet_nil, List.enum,
        join_validate_upgrade items 0 h, jEqStr]
    | null => rw [hins] at h; simp at h
    | num q => rw [hins] at h; simp at h
    | boolean b => rw [hins] at h; simp at h
    | str s => rw [hins] at h; simp at h
    | obj fs2 => rw [hins] at h; simp at h
  | null => simp [wellFormedV1] at h
  | num q => simp [wellFormedV1] at h
  | boolean b => simp [wellFormedV1] at h
  | str s => simp [wellFormedV1] at h
  | arr l => simp [wellFormedV1] at h

/-- C8, witness: the upgrade of the module's own V1 self-test object
passes validation. -/
theorem validate_upgrade_v1_wit :
    validate_insights (upgrade_insights_to_v2 wV1Sample) = (true, []) := by
  apply validate_upgrade_v1
  simp [wellFormedV1, wV1Sample, wellFormedV1Item, jGet, List.find?]
